import Mathlib

/-!
Verification of the resume-improver orchestration layer.

This file gives a shallow embedding, in Lean, of the server-side logic of
the repository: the response-normalization helpers (`cleanJsonResponse`,
`repairOpenAIJson`, `normalizePhaseResponse`), the provider dispatch
(`isGeminiModel`, `invokeModel`), the credential resolution of the two
vendor clients, the phase runner (`runPhase`), the prompt builders, and the
two API route handlers (analyze and rewrite).  Network calls made by the
vendor SDKs are abstracted as oracle functions; everything else follows the
TypeScript source line by line.  JavaScript string semantics (truthiness of
the empty string, `trim`, `startsWith`, `endsWith`, `slice`) are modelled
over `List Char`.
-/

namespace ResumeImprover

/-! ### JavaScript string primitives -/

/-- Whitespace characters removed by JavaScript `String.prototype.trim`
(ASCII whitespace, NBSP, BOM, and the Unicode line separators). -/
def isJsWhitespace (c : Char) : Bool :=
  c = ' ' || c = '\t' || c = '\n' || c = '\r' || c = '\x0b' || c = '\x0c' ||
  c = ' ' || c = ' ' || c = ' ' || c = '﻿'

/-- Trimming on the character list: drop whitespace from the left, then
from the right (the right side via `reverse`). -/
def jsTrimL (l : List Char) : List Char :=
  ((l.dropWhile isJsWhitespace).reverse.dropWhile isJsWhitespace).reverse

/-- Model of JavaScript `text.trim()`. -/
def jsTrim (s : String) : String :=
  ⟨jsTrimL s.data⟩

/-- The closing/opening code-fence marker. -/
def fenceChars : List Char :=
  "```".data

/-- The opening code-fence marker with a `json` language tag. -/
def fenceJsonChars : List Char :=
  "```json".data

/-- JavaScript `trimmed.endsWith(c)` for a one-character pattern. -/
def endsWithChar (l : List Char) (c : Char) : Bool :=
  l.getLast? = some c

/-! ### A model of `JSON.parse` (validity and error text only)

The repository calls the JavaScript built-in `JSON.parse`.  The functions
below implement the ECMA-404 grammar as a fuelled recursive-descent
recognizer producing either a parsed value or an error message.  The
verified properties about the repository's repair/normalize/run logic do
not depend on the internals of this parser, only on whether it succeeds;
it is executable so that concrete witnesses can be evaluated. -/

/-- JSON values. Numbers keep their raw source text: the repository never
computes with them. -/
inductive Json where
  | null
  | bool (b : Bool)
  | num (raw : String)
  | str (s : String)
  | arr (items : List Json)
  | obj (members : List (String × Json))

/-- The four whitespace characters allowed between JSON tokens. -/
def jsonWs (c : Char) : Bool :=
  c = ' ' || c = '\t' || c = '\n' || c = '\r'

/-- Skip inter-token whitespace. -/
def skipJsonWs (l : List Char) : List Char :=
  l.dropWhile jsonWs

/-- Value of a hexadecimal digit. -/
def hexVal (c : Char) : Option Nat :=
  if c.isDigit then some (c.toNat - '0'.toNat)
  else if 'a' ≤ c ∧ c ≤ 'f' then some (c.toNat - 'a'.toNat + 10)
  else if 'A' ≤ c ∧ c ≤ 'F' then some (c.toNat - 'A'.toNat + 10)
  else none

/-- Scan the body of a JSON string literal (after the opening quote),
returning the decoded characters and the remaining input. -/
def parseJsonStringChars : Nat → List Char → Except String (List Char × List Char)
  | _, [] => .error "unterminated string"
  | 0, _ => .error "string fuel exhausted"
  | fuel + 1, c :: rest =>
    if c = '"' then .ok ([], rest)
    else if c = '\\' then
      match rest with
      | [] => .error "unterminated escape"
      | e :: rest2 =>
        if e = '"' ∨ e = '\\' ∨ e = '/' then
          (parseJsonStringChars fuel rest2).map (fun p => (e :: p.1, p.2))
        else if e = 'b' then
          (parseJsonStringChars fuel rest2).map (fun p => ('\x08' :: p.1, p.2))
        else if e = 'f' then
          (parseJsonStringChars fuel rest2).map (fun p => ('\x0c' :: p.1, p.2))
        else if e = 'n' then
          (parseJsonStringChars fuel rest2).map (fun p => ('\n' :: p.1, p.2))
        else if e = 'r' then
          (parseJsonStringChars fuel rest2).map (fun p => ('\r' :: p.1, p.2))
        else if e = 't' then
          (parseJsonStringChars fuel rest2).map (fun p => ('\t' :: p.1, p.2))
        else if e = 'u' then
          match rest2 with
          | h1 :: h2 :: h3 :: h4 :: rest3 =>
            match hexVal h1, hexVal h2, hexVal h3, hexVal h4 with
            | some a, some b, some c2, some d =>
              let n := ((a * 16 + b) * 16 + c2) * 16 + d
              (parseJsonStringChars fuel rest3).map (fun p => (Char.ofNat n :: p.1, p.2))
            | _, _, _, _ => .error "invalid unicode escape"
          | _ => .error "invalid unicode escape"
        else .error "invalid escape"
    else if c.toNat < 32 then .error "control character in string"
    else (parseJsonStringChars fuel rest).map (fun p => (c :: p.1, p.2))

/-- Optional fraction part of a JSON number. -/
def parseJsonFrac (l : List Char) : Except String (List Char × List Char) :=
  match l with
  | c :: rest =>
    if c = '.' then
      let p := rest.span Char.isDigit
      if p.1.isEmpty then .error "expected digit after decimal point"
      else .ok (c :: p.1, p.2)
    else .ok ([], l)
  | [] => .ok ([], l)

/-- Optional exponent part of a JSON number. -/
def parseJsonExp (l : List Char) : Except String (List Char × List Char) :=
  match l with
  | c :: rest =>
    if c = 'e' ∨ c = 'E' then
      let sp :=
        match rest with
        | d :: r => if d = '+' ∨ d = '-' then (([d] : List Char), r) else (([] : List Char), rest)
        | [] => (([] : List Char), rest)
      let p := sp.2.span Char.isDigit
      if p.1.isEmpty then .error "expected digit in exponent"
      else .ok (c :: sp.1 ++ p.1, p.2)
    else .ok ([], l)
  | [] => .ok ([], l)

/-- Scan a JSON number, returning its raw text and the remaining input. -/
def parseJsonNumber (l : List Char) : Except String (String × List Char) := do
  let np :=
    match l with
    | c :: rest => if c = '-' then (([c] : List Char), rest) else (([] : List Char), l)
    | [] => (([] : List Char), l)
  match np.2 with
  | [] => .error "expected digit"
  | c :: rest =>
    if c = '0' then do
      let (f, r1) ← parseJsonFrac rest
      let (e, r2) ← parseJsonExp r1
      .ok (String.mk (np.1 ++ [c] ++ f ++ e), r2)
    else if c.isDigit then do
      let ds := rest.span Char.isDigit
      let (f, r1) ← parseJsonFrac ds.2
      let (e, r2) ← parseJsonExp r1
      .ok (String.mk (np.1 ++ (c :: ds.1) ++ f ++ e), r2)
    else .error "expected digit"

mutual

/-- Recognize one JSON value, returning it and the remaining input. -/
def parseJsonValue : Nat → List Char → Except String (Json × List Char)
  | 0, _ => .error "depth limit exceeded"
  | fuel + 1, l =>
    match skipJsonWs l with
    | [] => .error "unexpected end of JSON input"
    | c :: rest =>
      if c = '\x7b' then parseJsonMembersFirst fuel rest
      else if c = '[' then parseJsonItemsFirst fuel rest
      else if c = '"' then
        (parseJsonStringChars (rest.length + 1) rest).map
          (fun p => (Json.str (String.mk p.1), p.2))
      else if c = 't' then
        match rest with
        | 'r' :: 'u' :: 'e' :: r => .ok (Json.bool true, r)
        | _ => .error "invalid literal"
      else if c = 'f' then
        match rest with
        | 'a' :: 'l' :: 's' :: 'e' :: r => .ok (Json.bool false, r)
        | _ => .error "invalid literal"
      else if c = 'n' then
        match rest with
        | 'u' :: 'l' :: 'l' :: r => .ok (Json.null, r)
        | _ => .error "invalid literal"
      else if c = '-' ∨ c.isDigit then
        (parseJsonNumber (c :: rest)).map (fun p => (Json.num p.1, p.2))
      else .error "unexpected token"

/-- Array elements: the position right after `[`. -/
def parseJsonItemsFirst : Nat → List Char → Except String (Json × List Char)
  | 0, _ => .error "depth limit exceeded"
  | fuel + 1, l =>
    match skipJsonWs l with
    | [] => .error "unexpected end of JSON input"
    | c :: rest =>
      if c = ']' then .ok (Json.arr [], rest)
      else
        match parseJsonValue fuel (c :: rest) with
        | .error e => .error e
        | .ok (v, r) => parseJsonItemsRest fuel r [v]

/-- Array elements: after at least one element, expecting `,` or `]`. -/
def parseJsonItemsRest : Nat → List Char → List Json → Except String (Json × List Char)
  | 0, _, _ => .error "depth limit exceeded"
  | fuel + 1, l, acc =>
    match skipJsonWs l with
    | [] => .error "unexpected end of JSON input"
    | c :: rest =>
      if c = ']' then .ok (Json.arr acc.reverse, rest)
      else if c = ',' then
        match parseJsonValue fuel rest with
        | .error e => .error e
        | .ok (v, r) => parseJsonItemsRest fuel r (v :: acc)
      else .error "expected comma or closing bracket"

/-- Object members: the position right after the opening brace. -/
def parseJsonMembersFirst : Nat → List Char → Except String (Json × List Char)
  | 0, _ => .error "depth limit exceeded"
  | fuel + 1, l =>
    match skipJsonWs l with
    | [] => .error "unexpected end of JSON input"
    | c :: rest =>
      if c = '\x7d' then .ok (Json.obj [], rest)
      else
        match parseJsonMember fuel (c :: rest) with
        | .error e => .error e
        | .ok (kv, r) => parseJsonMembersRest fuel r [kv]

/-- Object members: after at least one member, expecting `,` or the
closing brace. -/
def parseJsonMembersRest : Nat → List Char → List (String × Json) →
    Except String (Json × List Char)
  | 0, _, _ => .error "depth limit exceeded"
  | fuel + 1, l, acc =>
    match skipJsonWs l with
    | [] => .error "unexpected end of JSON input"
    | c :: rest =>
      if c = '\x7d' then .ok (Json.obj acc.reverse, rest)
      else if c = ',' then
        match parseJsonMember fuel rest with
        | .error e => .error e
        | .ok (kv, r) => parseJsonMembersRest fuel r (kv :: acc)
      else .error "expected comma or closing brace"

/-- One `"key": value` member of an object. -/
def parseJsonMember : Nat → List Char → Except String ((String × Json) × List Char)
  | 0, _ => .error "depth limit exceeded"
  | fuel + 1, l =>
    match skipJsonWs l with
    | [] => .error "unexpected end of JSON input"
    | c :: rest =>
      if c = '"' then
        match parseJsonStringChars (rest.length + 1) rest with
        | .error e => .error e
        | .ok (k, r1) =>
          match skipJsonWs r1 with
          | [] => .error "unexpected end of JSON input"
          | c2 :: r2 =>
            if c2 = ':' then
              (parseJsonValue fuel r2).map (fun p => ((String.mk k, p.1), p.2))
            else .error "expected colon"
      else .error "expected property name"

end

/-- Model of `JSON.parse`: either the parsed value or an error message. -/
def parseJson (s : String) : Except String Json :=
  match parseJsonValue (2 * s.data.length + 4) s.data with
  | .error e => .error e
  | .ok (v, rest) =>
    match skipJsonWs rest with
    | [] => .ok v
    | _ => .error "unexpected non-whitespace character after JSON data"

/-- Does `JSON.parse` succeed on `s`? -/
def jsonParses (s : String) : Bool :=
  match parseJson s with
  | .ok _ => true
  | .error _ => false

/-! ### Response Normalizer (from `cleanJsonResponse`, `repairOpenAIJson`,
`normalizePhaseResponse` in the analyzer module) -/

/-- Model of `cleanJsonResponse`: trim, strip a leading ` ```json ` (7 chars) or
` ``` ` (3 chars) fence, strip a trailing ` ``` ` fence, trim again. -/
def cleanJsonResponse (text : String) : String :=
  let c0 := jsTrimL text.data
  let c1 :=
    if fenceJsonChars.isPrefixOf c0 then c0.drop 7
    else if fenceChars.isPrefixOf c0 then c0.drop 3
    else c0
  let c2 :=
    if fenceChars.isSuffixOf c1 then c1.take (c1.length - 3)
    else c1
  ⟨jsTrimL c2⟩

/-- Model of `repairOpenAIJson`: if the text already parses, return it as is;
otherwise, if the trimmed text does not end in a closing brace or bracket
the response is considered truncated and returned unchanged; otherwise
return the trimmed text. -/
def repairOpenAIJson (text : String) : String :=
  if jsonParses text then text
  else
    let trimmed := jsTrim text
    if !endsWithChar trimmed.data '\x7d' && !endsWithChar trimmed.data ']' then text
    else trimmed

/-- The two supported LLM vendors (`Provider` in the shared types). -/
inductive Provider where
  | openai
  | gemini
deriving DecidableEq, Repr

/-- Model of `normalizePhaseResponse`: empty text passes through; Gemini output has
code fences stripped; OpenAI output goes through the conservative JSON
repair; anything else (unreachable with a two-vendor `Provider`) is
trimmed. -/
def normalizePhaseResponse (provider : Provider) (rawText : String) : String :=
  if rawText = "" then rawText
  else if provider = .gemini then cleanJsonResponse rawText
  else if provider = .openai then repairOpenAIJson rawText
  else jsTrim rawText

/-! ### Provider Adapter (credential resolution and vendor dispatch) -/

/-- JavaScript `a || b` on nullable strings: the empty string is falsy. -/
def jsOrString (a b : Option String) : Option String :=
  match a with
  | some s => if s = "" then b else some s
  | none => b

/-- Key resolution performed by `getOpenAIClient`: request-supplied key,
else `process.env.OPENAI_API_KEY`; if the result is absent or empty the
constructor throws before any network use of the client. -/
def getOpenAIClientKey (apiKey envKey : Option String) : Except String String :=
  match jsOrString apiKey envKey with
  | some k => if k = "" then .error "Missing OpenAI API key" else .ok k
  | none => .error "Missing OpenAI API key"

/-- Key resolution performed by `getGeminiClient`: request-supplied key,
else `process.env.GEMINI_API_KEY`. -/
def getGeminiClientKey (apiKey envKey : Option String) : Except String String :=
  match jsOrString apiKey envKey with
  | some k => if k = "" then .error "Missing Google Gemini API key" else .ok k
  | none => .error "Missing Google Gemini API key"

/-- Model of `isGeminiModel`: model identifiers beginning with `gemini`
belong to the Gemini vendor (`model.startsWith('gemini')`, modelled on the
character list). -/
def isGeminiModel (model : String) : Bool :=
  "gemini".data.isPrefixOf model.data

/-- Models served through OpenAI's structured responses API
(`/^gpt-(4\.1|5)/` in the source). -/
def usesResponsesApi (model : String) : Bool :=
  "gpt-4.1".data.isPrefixOf model.data || "gpt-5".data.isPrefixOf model.data

/-- Server-side environment configuration: the per-vendor default keys. -/
structure Env where
  openaiKey : Option String
  geminiKey : Option String

/-- The vendor SDK network calls, abstracted.  Each oracle receives the
request data the source hands to the SDK and returns either a thrown error
message or the (possibly null) response text.  `chatCompletions` and
`responsesApi` receive (model, userMessage, systemPrompt); the Gemini call
receives (model, combinedPrompt). -/
structure Oracles where
  chatCompletions : String → String → String → Except String (Option String)
  responsesApi : String → String → String → Except String (Option String)
  geminiGenerate : String → String → Except String (Option String)

/-- Model of `getChatCompletionsResult`: construct the OpenAI client (resolving the
credential), then issue one chat-completions call. -/
def getChatCompletionsResult (o : Oracles) (env : Env)
    (model userMessage systemPrompt : String) (apiKey : Option String) :
    Except String (Option String) :=
  match getOpenAIClientKey apiKey env.openaiKey with
  | .error e => .error e
  | .ok _ => o.chatCompletions model userMessage systemPrompt

/-- Model of `getResponsesApiResult`: construct the OpenAI client, then issue one
responses-API call (the content-block flattening lives in the oracle). -/
def getResponsesApiResult (o : Oracles) (env : Env)
    (model userMessage systemPrompt : String) (apiKey : Option String) :
    Except String (Option String) :=
  match getOpenAIClientKey apiKey env.openaiKey with
  | .error e => .error e
  | .ok _ => o.responsesApi model userMessage systemPrompt

/-- Model of `runOpenAIAnalysis`: pick the responses API for `gpt-4.1*`/`gpt-5*`
models, the chat-completions API otherwise. -/
def runOpenAIAnalysis (o : Oracles) (env : Env)
    (model userMessage systemPrompt : String) (apiKey : Option String) :
    Except String (Option String) :=
  if usesResponsesApi model then
    getResponsesApiResult o env model userMessage systemPrompt apiKey
  else
    getChatCompletionsResult o env model userMessage systemPrompt apiKey

/-- Model of `runGeminiAnalysis`: construct the Gemini client (resolving the
credential), then issue one generate-content call on the combined
system-plus-user prompt. -/
def runGeminiAnalysis (o : Oracles) (env : Env)
    (model userMessage systemPrompt : String) (apiKey : Option String) :
    Except String (Option String) :=
  match getGeminiClientKey apiKey env.geminiKey with
  | .error e => .error e
  | .ok _ => o.geminiGenerate model (systemPrompt ++ "\n\n" ++ userMessage)

/-- Model of `invokeModel`: route to Gemini when the nominal provider is Gemini or
the model identifier is a Gemini one, tagging the result with the vendor
actually used; otherwise route to OpenAI. -/
def invokeModel (o : Oracles) (env : Env) (provider : Provider)
    (model userMessage systemPrompt : String) (apiKey : Option String) :
    Except String (Option String × Provider) :=
  if provider = .gemini ∨ isGeminiModel model then
    (runGeminiAnalysis o env model userMessage systemPrompt apiKey).map
      (fun t => (t, Provider.gemini))
  else
    (runOpenAIAnalysis o env model userMessage systemPrompt apiKey).map
      (fun t => (t, Provider.openai))

/-! ### Phase Runner -/

/-- The two processing phases (`PhaseLabel` in the source). -/
inductive PhaseLabel where
  | analysis
  | rewrite
deriving DecidableEq, Repr

/-- Interpolated phase name, as used in error messages. -/
def phaseLabelText : PhaseLabel → String
  | .analysis => "analysis"
  | .rewrite => "rewrite"

/-- The `PhaseParseError` value thrown by `runPhase` on a JSON parse
failure: every diagnostic field is retained. -/
structure PhaseParseError where
  phase : PhaseLabel
  provider : Provider
  raw : String
  cleaned : String
  originalError : String

/-- The failure modes of one phase invocation: an error thrown by the
vendor adapter (missing credential or vendor failure), an empty response,
or a parse failure. -/
inductive RunPhaseError where
  | vendor (message : String)
  | empty (phase : PhaseLabel) (provider : Provider)
  | parse (e : PhaseParseError)

/-- Model of `runPhase`: invoke the model, reject empty text, normalize by the
actual provider used, parse, and package any parse failure as a
`PhaseParseError`. -/
def runPhase (o : Oracles) (env : Env) (phase : PhaseLabel)
    (provider : Provider) (model systemPrompt userMessage : String)
    (apiKey : Option String) : Except RunPhaseError (Json × Provider) :=
  match invokeModel o env provider model userMessage systemPrompt apiKey with
  | .error e => .error (.vendor e)
  | .ok (none, actualProvider) => .error (.empty phase actualProvider)
  | .ok (some text, actualProvider) =>
    if text = "" then .error (.empty phase actualProvider)
    else
      let cleaned := normalizePhaseResponse actualProvider text
      match parseJson cleaned with
      | .ok parsed => .ok (parsed, actualProvider)
      | .error err =>
        .error (.parse
          { phase := phase
            provider := actualProvider
            raw := text
            cleaned := cleaned
            originalError := err })

/-! ### Request data model (from the shared TypeScript types) -/

/-- Professional lens for the analysis. -/
inductive Perspective where
  | general
  | leadership
  | technical
  | sales
  | hr
  | legal
  | customerService
  | product
  | marketing
  | finance
  | operations
deriving DecidableEq, Repr

/-- Wire value of a perspective. -/
def perspectiveText : Perspective → String
  | .general => "general"
  | .leadership => "leadership"
  | .technical => "technical"
  | .sales => "sales"
  | .hr => "hr"
  | .legal => "legal"
  | .customerService => "customer_service"
  | .product => "product"
  | .marketing => "marketing"
  | .finance => "finance"
  | .operations => "operations"

/-- Output language. -/
inductive Language where
  | es
  | en
  | enGB
deriving DecidableEq, Repr

/-- Wire value of a language. -/
def languageText : Language → String
  | .es => "es"
  | .en => "en"
  | .enGB => "en-GB"

/-- Regional formatting target. -/
inductive Region where
  | usa
  | latamMx
  | uk
deriving DecidableEq, Repr

/-- Wire value of a region. -/
def regionText : Region → String
  | .usa => "usa"
  | .latamMx => "latam_mx"
  | .uk => "uk"

/-- Tone preference. -/
inductive Tone where
  | concise
  | professional
  | friendly
deriving DecidableEq, Repr

/-- Output format (the types allow only markdown). -/
inductive OutputFormat where
  | markdown
deriving DecidableEq, Repr

/-- The `constraints` sub-record of an `AnalysisInput`. -/
structure Constraints where
  max_output_tokens : Nat
  format : OutputFormat
  tone : Tone
deriving DecidableEq, Repr

/-- The `AnalysisInput` record from the shared types. -/
structure AnalysisInput where
  resume_text : String
  perspective : Perspective
  language : Language
  region : Region
  provider : Provider
  model : String
  provider_api_key : Option String := none
  target_role : Option String := none
  job_description : Option String := none
  constraints : Constraints

/-! ### Prompt Builder -/

/-- Escape one character for a JSON string literal. -/
def escapeJsonChar (c : Char) : String :=
  if c = '"' then "\\\""
  else if c = '\\' then "\\\\"
  else if c = '\n' then "\\n"
  else if c = '\r' then "\\r"
  else if c = '\t' then "\\t"
  else String.singleton c

/-- Render a JSON string literal. -/
def renderJsonString (s : String) : String :=
  "\"" ++ String.join (s.data.map escapeJsonChar) ++ "\""

mutual

/-- Serialize a `Json` value (model of `JSON.stringify`; the pretty-print
indentation the source requests is abstracted away — no verified property
inspects the serialized text). -/
def renderJson : Json → String
  | .null => "null"
  | .bool true => "true"
  | .bool false => "false"
  | .num raw => raw
  | .str s => renderJsonString s
  | .arr items => "[" ++ renderJsonList items ++ "]"
  | .obj members => "\x7b" ++ renderJsonMembers members ++ "\x7d"

/-- Serialize array elements. -/
def renderJsonList : List Json → String
  | [] => ""
  | [v] => renderJson v
  | v :: rest => renderJson v ++ "," ++ renderJsonList rest

/-- Serialize object members. -/
def renderJsonMembers : List (String × Json) → String
  | [] => ""
  | [kv] => renderJsonString kv.1 ++ ":" ++ renderJson kv.2
  | kv :: rest => renderJsonString kv.1 ++ ":" ++ renderJson kv.2 ++ "," ++ renderJsonMembers rest

end

/-- Nullish coalescing to JSON null (`x ?? null`) on an optional string, serialized to JSON. -/
def jsonOfOption : Option String → Json
  | some s => .str s
  | none => .null

/-- System prompt of the analysis phase.  The full instruction text of the
source constant is abridged to its header line; no verified property
inspects its content. -/
def ANALYSIS_PHASE_PROMPT : String :=
  "# Resume Analyzer - Analysis Phase v2.0"

/-- System prompt of the rewrite phase (abridged, as above). -/
def REWRITE_PHASE_PROMPT : String :=
  "# Resume Analyzer - Rewrite Phase v2.0"

/-- Model of `buildAnalysisPhaseMessage`: serialize the analysis payload into the
fixed instruction template. -/
def buildAnalysisPhaseMessage (input : AnalysisInput) : String :=
  let payload : Json := .obj
    [("resume_text", .str input.resume_text),
     ("perspective", .str (perspectiveText input.perspective)),
     ("language", .str (languageText input.language)),
     ("region", .str (regionText input.region)),
     ("target_role", jsonOfOption input.target_role),
     ("job_description", jsonOfOption input.job_description)]
  "Analyze the following résumé and produce the analysis phase JSON. Keep the response concise and strictly follow the schema.\n\n"
    ++ renderJson payload

/-- The `recommendations` block of a parsed analysis result.  The phase
results are opaque pass-through values from the model; only the fields the
rewrite prompt builder projects out are given structure. -/
structure Recommendations where
  globalRecs : Json
  by_section : Json
  rewrite_criteria : Json

/-- A parsed `AnalysisPhaseResult`. -/
structure AnalysisPhaseResult where
  meta : Json
  extracted_profile : Json
  diagnostic : Json
  keyword_helper : Json
  recommendations : Recommendations

/-- Serialize a recommendations block back to JSON. -/
def recommendationsJson (r : Recommendations) : Json :=
  .obj
    [("global", r.globalRecs),
     ("by_section", r.by_section),
     ("rewrite_criteria", r.rewrite_criteria)]

/-- Model of `buildRewritePhaseMessage`: serialize the rewrite context (perspective,
language, region, target role, and the rewrite-relevant sub-objects of the
prior analysis) followed by the original résumé text. -/
def buildRewritePhaseMessage (input : AnalysisInput)
    (analysis : AnalysisPhaseResult) : String :=
  let context : Json := .obj
    [("perspective", .str (perspectiveText input.perspective)),
     ("language", .str (languageText input.language)),
     ("region", .str (regionText input.region)),
     ("target_role", jsonOfOption input.target_role),
     ("rewrite_criteria", analysis.recommendations.rewrite_criteria),
     ("diagnostic", analysis.diagnostic),
     ("extracted_profile", analysis.extracted_profile),
     ("recommendations", recommendationsJson analysis.recommendations)]
  "Using the existing diagnostic data, craft the improved résumé in markdown and document a changelog. Preserve factual accuracy and use placeholders for missing data.\n\n## Diagnostic JSON\n"
    ++ renderJson context ++ "\n\n## Original Résumé\n" ++ input.resume_text

/-! ### HTTP Endpoint Layer -/

/-- Body of an endpoint response: a success payload or an error message. -/
inductive ApiBody where
  | ok (data : Json)
  | err (message : String)

/-- Outcome of the analyze route: HTTP status, body, and whether control
reached the phase-runner invocation. -/
structure HttpResponse where
  status : Nat
  body : ApiBody
  phaseInvoked : Bool

/-- Model of `POST /analyze`: reject streaming, validate the résumé length bounds,
then run the analysis phase and map its outcome to a status code.  A
`PhaseParseError` becomes a 502 naming the phase; any other failure
becomes a generic 500. -/
def analyzePOST (o : Oracles) (env : Env) (streamRequested : Bool)
    (input : AnalysisInput) : HttpResponse :=
  if streamRequested then
    ⟨501, .err "Streaming is not available for multi-phase analysis yet.", false⟩
  else if input.resume_text = "" ∨ input.resume_text.length < 100 then
    ⟨400, .err "Resume text must be at least 100 characters", false⟩
  else if input.resume_text.length > 15000 then
    ⟨400, .err "Resume text must not exceed 15,000 characters", false⟩
  else
    match runPhase o env .analysis input.provider input.model
        ANALYSIS_PHASE_PROMPT (buildAnalysisPhaseMessage input)
        input.provider_api_key with
    | .ok (analysisData, _) => ⟨200, .ok analysisData, true⟩
    | .error (.parse e) =>
      ⟨502,
       .err ("The " ++ phaseLabelText e.phase ++ " response was invalid JSON. Please retry."),
       true⟩
    | .error _ => ⟨500, .err "Failed to analyze resume. Please try again.", true⟩

/-- The `RewriteInput` body accepted by `POST /rewrite`.  The analysis
payload is optional at runtime (the route checks for its presence). -/
structure RewriteInput where
  resume_text : String
  analysis : Option AnalysisPhaseResult
  perspective : Perspective
  language : Language
  region : Region
  provider : Provider
  model : String
  provider_api_key : Option String := none
  target_role : Option String := none

/-- The `AnalysisInput` record the rewrite route assembles before building
the rewrite prompt: caller fields are copied, `job_description` is pinned
to null, and the constraints are fixed. -/
def mkRewriteAnalysisInput (input : RewriteInput) : AnalysisInput :=
  { resume_text := input.resume_text
    perspective := input.perspective
    language := input.language
    region := input.region
    provider := input.provider
    model := input.model
    provider_api_key := input.provider_api_key
    target_role := input.target_role
    job_description := none
    constraints :=
      { max_output_tokens := 8000
        format := .markdown
        tone := .professional } }

/-- Error message for a missing key on the rewrite route. -/
def rewriteMissingKeyMessage (provider : Provider) : String :=
  if provider = .openai then "Missing OpenAI API key"
  else "Missing Google Gemini API key"

/-- Outcome of the rewrite route: status, error message when failing,
whether the model was invoked, and the prompts handed to `streamText`. -/
structure RewriteResponse where
  status : Nat
  errorMessage : Option String
  modelInvoked : Bool
  systemPromptSent : Option String
  promptSent : Option String

/-- Model of `POST /rewrite`: reject text shorter than 100 characters (there is no
upper-bound check on this route) and a missing analysis payload, resolve
the credential with nullish coalescing, then build the fixed
`AnalysisInput` and stream the rewrite phase. -/
def rewritePOST (env : Env) (input : RewriteInput) : RewriteResponse :=
  if input.resume_text = "" ∨ input.resume_text.length < 100 then
    ⟨400, some "Resume text must be at least 100 characters", false, none, none⟩
  else
    match input.analysis with
    | none => ⟨400, some "Analysis data is required", false, none, none⟩
    | some analysisData =>
      let apiKey :=
        match input.provider_api_key with
        | some k => some k
        | none =>
          match input.provider with
          | .openai => env.openaiKey
          | .gemini => env.geminiKey
      match apiKey with
      | none => ⟨400, some (rewriteMissingKeyMessage input.provider), false, none, none⟩
      | some k =>
        if k = "" then
          ⟨400, some (rewriteMissingKeyMessage input.provider), false, none, none⟩
        else
          let analysisInput := mkRewriteAnalysisInput input
          ⟨200, none, true, some REWRITE_PHASE_PROMPT,
           some (buildRewritePhaseMessage analysisInput analysisData)⟩

/-! ### Sample data used by witnesses and counterexamples -/

/-- Server environment with both vendor defaults configured. -/
def cexEnv : Env :=
  ⟨some "sk-default", some "gm-default"⟩

/-- Oracles whose every vendor call succeeds with non-JSON text. -/
def parseFailOracles : Oracles where
  chatCompletions := fun _ _ _ => .ok (some "nope")
  responsesApi := fun _ _ _ => .ok (some "nope")
  geminiGenerate := fun _ _ => .ok (some "nope")

/-- A résumé text of exactly 100 characters. -/
def witnessResumeText : String :=
  String.mk (List.replicate 100 'a')

/-- A résumé text of 15001 characters, one past the documented bound. -/
def overlongResumeText : String :=
  String.mk (List.replicate 15001 'a')

/-- A minimal parsed analysis result. -/
def sampleAnalysis : AnalysisPhaseResult :=
  { meta := .null
    extracted_profile := .null
    diagnostic := .null
    keyword_helper := .null
    recommendations := ⟨.null, .null, .null⟩ }

/-- A well-formed analyze request routed to Gemini. -/
def witnessAnalysisInput : AnalysisInput :=
  { resume_text := witnessResumeText
    perspective := .general
    language := .en
    region := .usa
    provider := .gemini
    model := "gemini-2.0-flash"
    provider_api_key := some "k"
    constraints := ⟨8000, .markdown, .professional⟩ }

/-- A rewrite request whose résumé text exceeds 15000 characters. -/
def overlongRewriteInput : RewriteInput :=
  { resume_text := overlongResumeText
    analysis := some sampleAnalysis
    perspective := .general
    language := .en
    region := .usa
    provider := .openai
    model := "gpt-4o"
    provider_api_key := some "rk" }

/-- A rewrite request with a 100-character résumé text. -/
def witnessRewriteInput : RewriteInput :=
  { resume_text := witnessResumeText
    analysis := some sampleAnalysis
    perspective := .general
    language := .en
    region := .usa
    provider := .gemini
    model := "gemini-2.0-flash"
    provider_api_key := some "k" }

/-- A rewrite request with a 10-character résumé text. -/
def shortRewriteInput : RewriteInput :=
  { resume_text := "too short."
    analysis := some sampleAnalysis
    perspective := .general
    language := .en
    region := .usa
    provider := .gemini
    model := "gemini-2.0-flash"
    provider_api_key := some "k" }

/-- An analyze request whose résumé text is below the lower bound. -/
def shortAnalysisInput : AnalysisInput :=
  { witnessAnalysisInput with resume_text := "too short." }

/-! ### Helper lemmas: trimming is idempotent -/

/-- Dropping a satisfied prefix twice is the same as dropping it once. -/
theorem dropWhile_idem {α : Type} (p : α → Bool) (l : List α) :
    (l.dropWhile p).dropWhile p = l.dropWhile p := by
  induction l with
  | nil => rfl
  | cons x xs ih =>
    by_cases h : p x
    · simp [List.dropWhile_cons, h, ih]
    · simp [List.dropWhile_cons, h]

/-- When `dropWhile` returns a nonempty list, the last element is that of
the input. -/
theorem getLast?_dropWhile {α : Type} (p : α → Bool) (l : List α)
    (h : l.dropWhile p ≠ []) : (l.dropWhile p).getLast? = l.getLast? := by
  induction l with
  | nil => simp at h
  | cons x xs ih =>
    by_cases hp : p x
    · rw [List.dropWhile_cons_of_pos hp] at h ⊢
      rw [ih h]
      have hxs : xs ≠ [] := by
        intro hnil
        rw [hnil] at h
        simp at h
      cases xs with
      | nil => exact absurd rfl hxs
      | cons y ys => simp [List.getLast?_cons_cons]
    · rw [List.dropWhile_cons_of_neg hp]

/-- A list whose head fails the predicate is unchanged by `dropWhile`. -/
theorem dropWhile_eq_self_of_head {α : Type} (p : α → Bool) (l : List α)
    (h : ∀ c, l.head? = some c → p c = false) : l.dropWhile p = l := by
  cases l with
  | nil => rfl
  | cons x xs =>
    have hx := h x rfl
    simp [List.dropWhile_cons, hx]

/-- Trimming the character list is idempotent. -/
theorem jsTrimL_idem (l : List Char) : jsTrimL (jsTrimL l) = jsTrimL l := by
  unfold jsTrimL
  have h1 : ((l.dropWhile isJsWhitespace).reverse.dropWhile isJsWhitespace).reverse.dropWhile
      isJsWhitespace
      = ((l.dropWhile isJsWhitespace).reverse.dropWhile isJsWhitespace).reverse := by
    apply dropWhile_eq_self_of_head
    intro c hc
    rw [List.head?_reverse] at hc
    by_cases hB : (l.dropWhile isJsWhitespace).reverse.dropWhile isJsWhitespace = []
    · rw [hB] at hc
      simp at hc
    · have h2 := getLast?_dropWhile isJsWhitespace (l.dropWhile isJsWhitespace).reverse hB
      rw [h2, List.getLast?_reverse] at hc
      have h3 := List.head?_dropWhile_not isJsWhitespace l
      rw [hc] at h3
      exact h3
  rw [h1, List.reverse_reverse, dropWhile_idem]

/-- The result of `cleanJsonResponse` is already trimmed. -/
theorem cleanJsonResponse_data_trimmed (s : String) :
    jsTrimL (cleanJsonResponse s).data = (cleanJsonResponse s).data := by
  unfold cleanJsonResponse
  exact jsTrimL_idem _

/-- A list with a ` ```json ` prefix also has a ` ``` ` prefix. -/
theorem fenceJson_implies_fence (l : List Char)
    (h : fenceJsonChars.isPrefixOf l = true) : fenceChars.isPrefixOf l = true := by
  rw [List.isPrefixOf_iff_prefix] at h ⊢
  exact List.IsPrefix.trans ⟨"json".data, by decide⟩ h

/-- A string that is trimmed and carries no leading or trailing fence
marker is a fixed point of `cleanJsonResponse`. -/
theorem cleanJsonResponse_eq_self (r : String)
    (ht : jsTrimL r.data = r.data)
    (h1 : fenceJsonChars.isPrefixOf r.data = false)
    (h2 : fenceChars.isPrefixOf r.data = false)
    (h3 : fenceChars.isSuffixOf r.data = false) :
    cleanJsonResponse r = r := by
  unfold cleanJsonResponse
  simp only [ht, h1, h2, h3, Bool.false_eq_true, if_false]

/-! ### C4: idempotence of the code-fence stripper -/

/-- C4 counterexample: `cleanJsonResponse` (the implementation of
`stripCodeFences`) is not idempotent.  On the string of three fence
markers separated by spaces, one application yields a single fence marker
and a second application strips it away. -/
theorem cleanJsonResponse_not_idempotent :
    cleanJsonResponse (cleanJsonResponse "``` ``` ```") ≠
      cleanJsonResponse "``` ``` ```" := by
  decide

/-- C4 (amended): `cleanJsonResponse` is idempotent on every string whose
once-cleaned form neither starts nor ends with a fence marker; a second
application can only strip further when the first strip exposed a new
fence at an end. -/
theorem cleanJsonResponse_idempotent_of_no_fence (s : String)
    (h1 : fenceChars.isPrefixOf (cleanJsonResponse s).data = false)
    (h2 : fenceChars.isSuffixOf (cleanJsonResponse s).data = false) :
    cleanJsonResponse (cleanJsonResponse s) = cleanJsonResponse s := by
  have hjson : fenceJsonChars.isPrefixOf (cleanJsonResponse s).data = false := by
    cases hb : fenceJsonChars.isPrefixOf (cleanJsonResponse s).data
    · rfl
    · rw [fenceJson_implies_fence _ hb] at h1
      cases h1
  exact cleanJsonResponse_eq_self _ (cleanJsonResponse_data_trimmed s) hjson h1 h2

/-- C4 witness: a fenced payload whose cleaned form is fence-free, on
which the amended idempotence law applies. -/
theorem cleanJsonResponse_idempotent_of_no_fence_witness :
    fenceChars.isPrefixOf (cleanJsonResponse "```json [1] ```").data = false ∧
    fenceChars.isSuffixOf (cleanJsonResponse "```json [1] ```").data = false ∧
    cleanJsonResponse (cleanJsonResponse "```json [1] ```") =
      cleanJsonResponse "```json [1] ```" :=
  ⟨by decide, by decide,
   cleanJsonResponse_idempotent_of_no_fence _ (by decide) (by decide)⟩

/-! ### C5: the repair step is a no-op on valid JSON -/

/-- C5: `repairOpenAIJson` (the implementation of `attemptRepair`) returns
any input that already parses as JSON unchanged. -/
theorem repairOpenAIJson_noop_of_valid (s : String)
    (h : jsonParses s = true) : repairOpenAIJson s = s := by
  simp [repairOpenAIJson, h]

/-- C5 witness: a concrete valid JSON document is returned unchanged. -/
theorem repairOpenAIJson_noop_of_valid_witness :
    jsonParses "[1, 2]" = true ∧ repairOpenAIJson "[1, 2]" = "[1, 2]" :=
  ⟨by decide, repairOpenAIJson_noop_of_valid _ (by decide)⟩

/-! ### C6: truncated input is returned unchanged -/

/-- C6: when the trimmed text ends with neither a closing brace nor a
closing bracket, `repairOpenAIJson` returns the input unchanged — no
repair is attempted on truncated input. -/
theorem repairOpenAIJson_unchanged_of_truncated (s : String)
    (h1 : endsWithChar (jsTrim s).data '\x7d' = false)
    (h2 : endsWithChar (jsTrim s).data ']' = false) :
    repairOpenAIJson s = s := by
  by_cases hp : jsonParses s
  · simp [repairOpenAIJson, hp]
  · simp [repairOpenAIJson, hp, h1, h2]

/-- C6 witness: a truncated array literal is returned unchanged. -/
theorem repairOpenAIJson_unchanged_of_truncated_witness :
    endsWithChar (jsTrim "[1, 2").data '\x7d' = false ∧
    endsWithChar (jsTrim "[1, 2").data ']' = false ∧
    repairOpenAIJson "[1, 2" = "[1, 2" :=
  ⟨by decide, by decide,
   repairOpenAIJson_unchanged_of_truncated _ (by decide) (by decide)⟩

/-! ### C7: the normalizer dispatches on the actual provider -/

/-- C7: on non-empty raw text the normalizer applies the fence stripper
for Gemini output and the conservative JSON repair for OpenAI output. -/
theorem normalizePhaseResponse_dispatch (raw : String) (h : raw ≠ "") :
    normalizePhaseResponse .gemini raw = cleanJsonResponse raw ∧
    normalizePhaseResponse .openai raw = repairOpenAIJson raw := by
  constructor <;> simp [normalizePhaseResponse, h]

/-- C7 witness: the dispatch at a concrete non-empty response text. -/
theorem normalizePhaseResponse_dispatch_witness :
    normalizePhaseResponse .gemini "x" = cleanJsonResponse "x" ∧
    normalizePhaseResponse .openai "x" = repairOpenAIJson "x" :=
  normalizePhaseResponse_dispatch "x" (by decide)

/-! ### C2: provider dispatch override -/

/-- C2: a model identifier beginning with `gemini` routes the call to the
Gemini vendor regardless of the nominal provider, and the result is
tagged with Gemini as the actual provider; otherwise the nominal provider
selector is honored. -/
theorem invokeModel_dispatch (o : Oracles) (env : Env) (provider : Provider)
    (model userMessage systemPrompt : String) (apiKey : Option String) :
    (isGeminiModel model = true →
      invokeModel o env provider model userMessage systemPrompt apiKey =
        (runGeminiAnalysis o env model userMessage systemPrompt apiKey).map
          (fun t => (t, Provider.gemini))) ∧
    (isGeminiModel model = false →
      invokeModel o env provider model userMessage systemPrompt apiKey =
        (match provider with
         | .gemini =>
           (runGeminiAnalysis o env model userMessage systemPrompt apiKey).map
             (fun t => (t, Provider.gemini))
         | .openai =>
           (runOpenAIAnalysis o env model userMessage systemPrompt apiKey).map
             (fun t => (t, Provider.openai)))) := by
  constructor
  · intro h
    simp [invokeModel, h]
  · intro h
    cases provider
    · simp [invokeModel, h]
    · simp [invokeModel, h]

/-- C2 witness: a `gemini`-named model nominally sent to OpenAI is routed
to Gemini and tagged accordingly. -/
theorem invokeModel_dispatch_witness :
    invokeModel parseFailOracles cexEnv .openai "gemini-2.0-flash" "u" "s" none =
      (runGeminiAnalysis parseFailOracles cexEnv "gemini-2.0-flash" "u" "s" none).map
        (fun t => (t, Provider.gemini)) :=
  (invokeModel_dispatch parseFailOracles cexEnv .openai "gemini-2.0-flash" "u" "s"
    none).1 (by decide)

/-! ### C3: the parse-failure value retains all diagnostics -/

/-- C3: when the normalized response text fails JSON parsing, `runPhase`
fails with a `PhaseParseError` carrying, simultaneously, the phase name,
the actual provider, the raw text, the normalized text, and the parse
error. -/
theorem runPhase_parse_failure_payload (o : Oracles) (env : Env)
    (phase : PhaseLabel) (provider actualProvider : Provider)
    (model systemPrompt userMessage : String) (apiKey : Option String)
    (text err : String)
    (hinv : invokeModel o env provider model userMessage systemPrompt apiKey =
      .ok (some text, actualProvider))
    (hne : text ≠ "")
    (hparse : parseJson (normalizePhaseResponse actualProvider text) = .error err) :
    runPhase o env phase provider model systemPrompt userMessage apiKey =
      .error (.parse
        { phase := phase
          provider := actualProvider
          raw := text
          cleaned := normalizePhaseResponse actualProvider text
          originalError := err }) := by
  unfold runPhase
  rw [hinv]
  simp [hne, hparse]

/-- C3 witness: a Gemini call answered with non-JSON text produces the
fully populated parse-failure value. -/
theorem runPhase_parse_failure_payload_witness :
    runPhase parseFailOracles cexEnv .analysis .gemini "gemini-2.0-flash" "s" "u"
        (some "k") =
      .error (.parse
        { phase := .analysis
          provider := .gemini
          raw := "nope"
          cleaned := normalizePhaseResponse .gemini "nope"
          originalError := "invalid literal" }) :=
  runPhase_parse_failure_payload parseFailOracles cexEnv .analysis .gemini .gemini
    "gemini-2.0-flash" "s" "u" (some "k") "nope" "invalid literal" rfl (by decide) rfl

/-! ### C8: credential resolution order -/

/-- C8: each vendor client resolves its credential as the request-supplied
key when that is non-empty, else the provider-specific environment
default; when neither is available the invocation fails with the
missing-key configuration error, and (final two conjuncts) the vendor
adapters return that error without consulting the network oracle. -/
theorem credential_resolution (req : Option String) (env : Env) :
    (∀ k, req = some k → k ≠ "" →
      getOpenAIClientKey req env.openaiKey = .ok k ∧
      getGeminiClientKey req env.geminiKey = .ok k) ∧
    ((req = none ∨ req = some "") → ∀ e, env.openaiKey = some e → e ≠ "" →
      getOpenAIClientKey req env.openaiKey = .ok e) ∧
    ((req = none ∨ req = some "") → ∀ e, env.geminiKey = some e → e ≠ "" →
      getGeminiClientKey req env.geminiKey = .ok e) ∧
    ((req = none ∨ req = some "") →
      (env.openaiKey = none ∨ env.openaiKey = some "") →
      getOpenAIClientKey req env.openaiKey = .error "Missing OpenAI API key") ∧
    ((req = none ∨ req = some "") →
      (env.geminiKey = none ∨ env.geminiKey = some "") →
      getGeminiClientKey req env.geminiKey = .error "Missing Google Gemini API key") ∧
    ((req = none ∨ req = some "") →
      (env.openaiKey = none ∨ env.openaiKey = some "") →
      ∀ o model u s, runOpenAIAnalysis o env model u s req =
        .error "Missing OpenAI API key") ∧
    ((req = none ∨ req = some "") →
      (env.geminiKey = none ∨ env.geminiKey = some "") →
      ∀ o model u s, runGeminiAnalysis o env model u s req =
        .error "Missing Google Gemini API key") := by
  refine ⟨?_, ?_, ?_, ?_, ?_, ?_, ?_⟩
  · intro k hk hne
    subst hk
    constructor <;> simp [getOpenAIClientKey, getGeminiClientKey, jsOrString, hne]
  · rintro (rfl | rfl) e he hne <;>
      simp [getOpenAIClientKey, jsOrString, he, hne]
  · rintro (rfl | rfl) e he hne <;>
      simp [getGeminiClientKey, jsOrString, he, hne]
  · rintro (rfl | rfl) (he | he) <;>
      simp [getOpenAIClientKey, jsOrString, he]
  · rintro (rfl | rfl) (he | he) <;>
      simp [getGeminiClientKey, jsOrString, he]
  · rintro hr he o model u s
    have hkey : getOpenAIClientKey req env.openaiKey = .error "Missing OpenAI API key" := by
      rcases hr with rfl | rfl <;> rcases he with he | he <;>
        simp [getOpenAIClientKey, jsOrString, he]
    unfold runOpenAIAnalysis getResponsesApiResult getChatCompletionsResult
    rw [hkey]
    by_cases hm : usesResponsesApi model <;> simp [hm]
  · rintro hr he o model u s
    have hkey : getGeminiClientKey req env.geminiKey =
        .error "Missing Google Gemini API key" := by
      rcases hr with rfl | rfl <;> rcases he with he | he <;>
        simp [getGeminiClientKey, jsOrString, he]
    unfold runGeminiAnalysis
    rw [hkey]

/-- C8 witness: the resolution order and the missing-key failure at
concrete inputs — a request key wins, the environment default is used in
its absence, and with neither configured the Gemini adapter fails with
the configuration error for every oracle. -/
theorem credential_resolution_witness :
    (getOpenAIClientKey (some "rk") (some "ek") = .ok "rk" ∧
      getGeminiClientKey (some "rk") (some "gk") = .ok "rk") ∧
    getOpenAIClientKey none (some "ek") = .ok "ek" ∧
    getGeminiClientKey none (some "gk") = .ok "gk" ∧
    runGeminiAnalysis parseFailOracles ⟨some "ek", none⟩ "m" "u" "s" none =
      .error "Missing Google Gemini API key" :=
  ⟨(credential_resolution (some "rk") ⟨some "ek", some "gk"⟩).1 "rk" rfl (by decide),
   (credential_resolution none ⟨some "ek", some "gk"⟩).2.1 (Or.inl rfl) "ek" rfl
     (by decide),
   (credential_resolution none ⟨some "ek", some "gk"⟩).2.2.1 (Or.inl rfl) "gk" rfl
     (by decide),
   (credential_resolution none ⟨some "ek", none⟩).2.2.2.2.2.2 (Or.inl rfl)
     (Or.inl rfl) parseFailOracles "m" "u" "s"⟩

/-! ### C9: parse failures map to 502, other failures to 500 -/

/-- C9: on a length-valid analyze request, a `PhaseParseError` from the
phase runner yields a 502 response whose message names the failed phase,
while a vendor error or an empty response yields the generic 500. -/
theorem analyzePOST_parse_failure_status (o : Oracles) (env : Env)
    (input : AnalysisInput)
    (hlo : ¬(input.resume_text = "" ∨ input.resume_text.length < 100))
    (hhi : ¬input.resume_text.length > 15000) :
    (∀ e, runPhase o env .analysis input.provider input.model ANALYSIS_PHASE_PROMPT
        (buildAnalysisPhaseMessage input) input.provider_api_key = .error (.parse e) →
      analyzePOST o env false input =
        ⟨502, .err ("The " ++ phaseLabelText e.phase ++
          " response was invalid JSON. Please retry."), true⟩) ∧
    (∀ m, runPhase o env .analysis input.provider input.model ANALYSIS_PHASE_PROMPT
        (buildAnalysisPhaseMessage input) input.provider_api_key = .error (.vendor m) →
      analyzePOST o env false input =
        ⟨500, .err "Failed to analyze resume. Please try again.", true⟩) ∧
    (∀ ph pv, runPhase o env .analysis input.provider input.model ANALYSIS_PHASE_PROMPT
        (buildAnalysisPhaseMessage input) input.provider_api_key =
          .error (.empty ph pv) →
      analyzePOST o env false input =
        ⟨500, .err "Failed to analyze resume. Please try again.", true⟩) := by
  refine ⟨?_, ?_, ?_⟩
  · intro e h
    simp [analyzePOST, hlo, hhi, h]
  · intro m h
    simp [analyzePOST, hlo, hhi, h]
  · intro ph pv h
    simp [analyzePOST, hlo, hhi, h]

/-- C9 witness: a Gemini analysis that returns non-JSON text surfaces as
the 502 response naming the analysis phase. -/
theorem analyzePOST_parse_failure_status_witness :
    analyzePOST parseFailOracles cexEnv false witnessAnalysisInput =
      ⟨502, .err "The analysis response was invalid JSON. Please retry.", true⟩ :=
  (analyzePOST_parse_failure_status parseFailOracles cexEnv witnessAnalysisInput
      (by decide) (by decide)).1
    { phase := .analysis
      provider := .gemini
      raw := "nope"
      cleaned := normalizePhaseResponse .gemini "nope"
      originalError := "invalid literal" }
    rfl

/-! ### C1: length validation on the two endpoints -/

/-- A length-valid rewrite request with the analysis payload and a
non-empty key reaches the model invocation. -/
theorem rewritePOST_invokes (env : Env) (input : RewriteInput)
    (a : AnalysisPhaseResult) (k : String)
    (hne : ¬(input.resume_text = "" ∨ input.resume_text.length < 100))
    (ha : input.analysis = some a)
    (hk : input.provider_api_key = some k)
    (hk2 : k ≠ "") :
    rewritePOST env input =
      ⟨200, none, true, some REWRITE_PHASE_PROMPT,
       some (buildRewritePhaseMessage (mkRewriteAnalysisInput input) a)⟩ := by
  simp [rewritePOST, hne, ha, hk, hk2]

/-- C1 counterexample: a rewrite request whose résumé text has 15001
characters is not rejected with a 400 — the rewrite route has no
upper-bound check and the model is invoked. -/
theorem rewrite_overlong_not_rejected :
    overlongResumeText.length > 15000 ∧
    (rewritePOST cexEnv overlongRewriteInput).status = 200 ∧
    (rewritePOST cexEnv overlongRewriteInput).modelInvoked = true := by
  have hlen : overlongResumeText.length = 15001 :=
    List.length_replicate 15001 'a'
  have hne : ¬(overlongRewriteInput.resume_text = "" ∨
      overlongRewriteInput.resume_text.length < 100) := by
    rintro (he | hl)
    · have h0 : overlongResumeText = "" := he
      rw [h0] at hlen
      exact absurd hlen (by decide)
    · have h1 : overlongResumeText.length < 100 := hl
      omega
  have h := rewritePOST_invokes cexEnv overlongRewriteInput sampleAnalysis "rk" hne rfl
    rfl (by decide)
  refine ⟨by omega, ?_, ?_⟩ <;> rw [h]

/-- C1 (amended): the analyze route rejects résumé text that is missing,
shorter than 100, or longer than 15000 characters with a 400 before the
phase runner is invoked, and in-range text passes its length validation;
the rewrite route enforces only the lower bound: it rejects missing or
short text with a 400 before any model call, and any text of at least 100
characters — with no upper limit — passes its length validation and, with
an analysis payload and credential present, reaches the model. -/
theorem length_validation_endpoints (o : Oracles) (env : Env)
    (input : AnalysisInput) (rinput : RewriteInput) :
    ((input.resume_text = "" ∨ input.resume_text.length < 100) →
      analyzePOST o env false input =
        ⟨400, .err "Resume text must be at least 100 characters", false⟩) ∧
    (¬(input.resume_text = "" ∨ input.resume_text.length < 100) →
      input.resume_text.length > 15000 →
      analyzePOST o env false input =
        ⟨400, .err "Resume text must not exceed 15,000 characters", false⟩) ∧
    (100 ≤ input.resume_text.length → input.resume_text.length ≤ 15000 →
      (analyzePOST o env false input).phaseInvoked = true) ∧
    ((rinput.resume_text = "" ∨ rinput.resume_text.length < 100) →
      rewritePOST env rinput =
        ⟨400, some "Resume text must be at least 100 characters", false, none, none⟩) ∧
    (100 ≤ rinput.resume_text.length →
      ∀ a, rinput.analysis = some a →
      ∀ k, rinput.provider_api_key = some k → k ≠ "" →
      (rewritePOST env rinput).modelInvoked = true) := by
  refine ⟨?_, ?_, ?_, ?_, ?_⟩
  · intro h
    simp [analyzePOST, h]
  · intro h1 h2
    simp [analyzePOST, h1, h2]
  · intro h1 h2
    have hne : ¬(input.resume_text = "" ∨ input.resume_text.length < 100) := by
      rintro (he | hl)
      · rw [he] at h1
        exact absurd h1 (by decide)
      · omega
    have hhi : ¬input.resume_text.length > 15000 := by omega
    unfold analyzePOST
    rw [if_neg (by simp), if_neg hne, if_neg hhi]
    cases hrp : runPhase o env .analysis input.provider input.model ANALYSIS_PHASE_PROMPT
        (buildAnalysisPhaseMessage input) input.provider_api_key with
    | ok v =>
      obtain ⟨d, p⟩ := v
      rfl
    | error e => cases e <;> rfl
  · intro h
    simp [rewritePOST, h]
  · intro h1 a ha k hk hk2
    have hne : ¬(rinput.resume_text = "" ∨ rinput.resume_text.length < 100) := by
      rintro (he | hl)
      · rw [he] at h1
        exact absurd h1 (by decide)
      · omega
    rw [rewritePOST_invokes env rinput a k hne ha hk hk2]

/-- C1 witness: a short analyze request is rejected with the 400, and the
15001-character rewrite request passes the rewrite route's validation and
reaches the model. -/
theorem length_validation_endpoints_witness :
    analyzePOST parseFailOracles cexEnv false shortAnalysisInput =
      ⟨400, .err "Resume text must be at least 100 characters", false⟩ ∧
    (rewritePOST cexEnv overlongRewriteInput).modelInvoked = true :=
  ⟨(length_validation_endpoints parseFailOracles cexEnv shortAnalysisInput
      overlongRewriteInput).1 (Or.inr (by decide)),
   (length_validation_endpoints parseFailOracles cexEnv shortAnalysisInput
      overlongRewriteInput).2.2.2.2
     (by
       have hlen : overlongResumeText.length = 15001 := List.length_replicate 15001 'a'
       show 100 ≤ overlongResumeText.length
       omega)
     sampleAnalysis rfl "rk" rfl (by decide)⟩

/-! ### C10: the rewrite route pins the analysis-input record -/

/-- C10: the `AnalysisInput` record the rewrite route builds the prompt
from always has a null job description and the fixed constraints
(8000 output tokens, markdown, professional tone), regardless of the
caller-supplied request. -/
theorem rewrite_analysis_input_pinned (input : RewriteInput) :
    (mkRewriteAnalysisInput input).job_description = none ∧
    (mkRewriteAnalysisInput input).constraints =
      ⟨8000, OutputFormat.markdown, Tone.professional⟩ :=
  ⟨rfl, rfl⟩

end ResumeImprover
